import Mathlib

/-!
Verification of the RoofNN Mini App client (`web/script.js`) and of the
spec's access-control core.

The file shallowly embeds the two copies of the view script found in
`web/script.js` (an IIFE at lines 1-256, and a second legacy copy at
lines 258-529), plus — where a claim is decided by server code that is
not part of the inspected sources — a model of the server built from the
specification (those definitions carry a doc comment starting with
"Modelled from the spec").

Conventions of the embedding:
* JavaScript strings are `String`; a possibly-absent JSON field is
  `Option String` (`none` = the field is missing or the body failed to
  parse, i.e. `undefined` in JS).
* JS truthiness on such a value: `undefined`, a missing key and `""` are
  falsy; every other string is truthy (`truthyS`).
* The DOM state touched by the handlers is `ClientState`; observable
  actions (the `fetch` POST to `/api/buy_spot`, `window.open`) are
  recorded as `Effect`s.
* `async`/`await` is embedded by passing the server's response as an
  explicit oracle argument; the suspension point of `onOpenTutorClick`
  is made explicit by splitting the handler into `tutorClickStart`
  (before the `await`) and `tutorClickResume` (after it).
* Numbers used as coordinates are embedded as `Rat`; no rounding or
  formatting behaviour is proved about them (the `toFixed(5)` display
  strings are presentational only and are elided from the state).
-/

/-- JS `a || b` for a possibly-absent string `a` (as in `data.detail || "…"`):
the default is taken when the field is missing or the string is empty. -/
def jsOr (o : Option String) (d : String) : String :=
  match o with
  | some s => if s = "" then d else s
  | none => d

/-- JS `a || b` on two strings (as in `e.message || "Ошибка"`). -/
def jsOrS (s d : String) : String :=
  if s = "" then d else s

/-- Common JS whitespace recognised by `String.prototype.trim` and
`parseInt` (space, tab, newline, carriage return, form feed, vertical tab). -/
def isWsCh (c : Char) : Bool :=
  c == ' ' || c == '\t' || c == '\n' || c == '\x0d' || c == '\x0c' || c == '\x0b'

/-- JS `String.prototype.trim`. -/
def jsTrim (s : String) : String :=
  String.mk (((s.data.dropWhile isWsCh).reverse.dropWhile isWsCh).reverse)

/-- Decimal digit test for `parseInt(·, 10)`. -/
def isDigitCh (c : Char) : Bool :=
  48 ≤ c.toNat && c.toNat ≤ 57

/-- Value of the maximal leading run of decimal digits; `none` when the run
is empty (which makes `parseInt` yield `NaN`). -/
def parseDigits (l : List Char) : Option Nat :=
  let ds := l.takeWhile isDigitCh
  if ds.isEmpty then none
  else some (ds.foldl (fun a c => a * 10 + (c.toNat - 48)) 0)

/-- JS `parseInt(s, 10)`: skip leading whitespace, optional sign, maximal
run of decimal digits; trailing characters are ignored. `none` embeds `NaN`. -/
def parseIntJS (s : String) : Option Int :=
  match s.data.dropWhile isWsCh with
  | '-' :: rest => (parseDigits rest).map (fun n => -(n : Int))
  | '+' :: rest => (parseDigits rest).map (fun n => (n : Int))
  | l => (parseDigits l).map (fun n => (n : Int))

/-- Does `l` start with `pat`? (component of the JS `includes`/`startsWith`
string tests). -/
def leadsWith (pat : List Char) (l : List Char) : Bool :=
  match pat, l with
  | [], _ => true
  | _ :: _, [] => false
  | a :: as, b :: bs => a == b && leadsWith as bs

/-- Substring occurrence test on character lists. -/
def containsSub (pat : List Char) (l : List Char) : Bool :=
  match l with
  | [] => leadsWith pat []
  | _ :: rest => leadsWith pat l || containsSub pat rest

/-- JS `String.prototype.includes`. -/
def includesStr (s pat : String) : Bool :=
  containsSub pat.data s.data

/-- JS `String.prototype.startsWith`. -/
def startsWithStr (s pat : String) : Bool :=
  leadsWith pat.data s.data

/-- JS truthiness of `boughtSpots[id]`: a missing entry, `undefined` and
the empty string are falsy. -/
def truthyS (o : Option String) : Bool :=
  match o with
  | some s => s != ""
  | none => false

/-- The server's reply to a POST as the client sees it: `ok` is
`res.ok`, and the two fields read out of `data = await res.json().catch(() => (\x7b\x7d))`
— `none` embeds a missing field or an unparseable body. -/
structure ServerResp where
  ok : Bool
  detail : Option String
  telegraph_url : Option String
deriving DecidableEq

/-- Body of the `/api/buy_spot` POST built by `buySpot` (first copy,
script.js lines 76-80): `\x7b spot_id, init_data \x7d`. -/
def buySpotBody (spotId : Int) (initData : String) : Int × String :=
  (spotId, initData)

/-- `buySpot` (first copy, script.js lines 74-84) as a function of the
response: on `!res.ok` it throws `new Error(data.detail || "Ошибка покупки")`,
otherwise it returns `data.telegraph_url` (possibly `undefined`). -/
def buySpot (resp : ServerResp) : Except String (Option String) :=
  if resp.ok = false then Except.error (jsOr resp.detail "Ошибка покупки")
  else Except.ok resp.telegraph_url

/-- Body of the `/api/buy_spot` POST built by the second copy's `buySpot`
(script.js lines 360-364). -/
def buySpotBody2 (spotId : Int) (initData : String) : Int × String :=
  (spotId, initData)

/-- `buySpot` of the second (legacy) copy, script.js lines 358-370. -/
def buySpot2 (resp : ServerResp) : Except String (Option String) :=
  if resp.ok = false then Except.error (jsOr resp.detail "Ошибка покупки")
  else Except.ok resp.telegraph_url

/-- Observable actions of the client handlers. -/
inductive Effect where
  /-- the `fetch` POST to `/api/buy_spot` with body `\x7b spot_id, init_data \x7d` -/
  | buyRequest (spotId : Int) (initData : String)
  /-- `window.open(url, "_blank")` (`none` = `window.open(undefined)`) -/
  | openWindow (url : Option String)
deriving DecidableEq

/-- The DOM/JS state the tutor-card handlers touch. `boughtSpots` is the
`spotId -> telegraph_url` cache; `dataSpotId` is
`$btnOpenTutor.dataset.spotId`; `errText`/`errHidden` are
`$spotError.textContent` / its `hidden` class; the presentational
`$spotCoords` text (a `toFixed(5)` rendering) is elided. -/
structure ClientState where
  boughtSpots : Int → Option String
  dataSpotId : String
  titleText : String
  btnText : String
  btnDisabled : Bool
  errText : String
  errHidden : Bool
  cardHidden : Bool

/-- Initial client state: empty purchase cache, no spot selected, card
hidden, error hidden, button enabled. -/
def initClient : ClientState where
  boughtSpots := fun _ => none
  dataSpotId := ""
  titleText := ""
  btnText := ""
  btnDisabled := false
  errText := ""
  errHidden := true
  cardHidden := true

/-- `selectSpot` (first copy, script.js lines 107-117): shows the card,
hides and clears the error, stores `String(id)` in the button's
`data-spot-id`, and picks the button label from the purchase cache. -/
def selectSpot (id : Int) (title : String) (st : ClientState) : ClientState :=
  { st with
    cardHidden := false
    errHidden := true
    errText := ""
    titleText := title
    dataSpotId := toString id
    btnText :=
      if truthyS (st.boughtSpots id) then "Открыть туториал на Telegraph"
      else "Открыть туториал (20 ₽ или 1 бесплатная попытка)" }

/-- First half of `onOpenTutorClick` (first copy, script.js lines 119-127),
up to the `await buySpot(spotId)` suspension point. `Sum.inl`: the handler
completed without a purchase request (bad id, or cached URL opened);
`Sum.inr`: the handler is suspended awaiting the response, with the error
hidden and the button disabled, and carries the parsed spot id. -/
def tutorClickStart (st : ClientState) : (ClientState × List Effect) ⊕ (ClientState × Int) :=
  match parseIntJS st.dataSpotId with
  | none => Sum.inl (st, [])
  | some spotId =>
    if spotId = 0 then Sum.inl (st, [])
    else if truthyS (st.boughtSpots spotId) then
      Sum.inl (st, [Effect.openWindow (st.boughtSpots spotId)])
    else
      Sum.inr ({ st with errHidden := true, btnDisabled := true }, spotId)

/-- Second half of `onOpenTutorClick` (first copy, script.js lines 128-137):
resume after `buySpot` settles. On success the url is cached, the button is
relabelled and the url opened; on failure `e.message || "Ошибка"` is shown.
Either way the button is re-enabled. -/
def tutorClickResume (spotId : Int) (resp : ServerResp) (st : ClientState) :
    ClientState × List Effect :=
  match buySpot resp with
  | Except.ok url =>
      ({ st with
          boughtSpots := fun k => if k = spotId then url else st.boughtSpots k
          btnText := "Открыть туториал на Telegraph"
          btnDisabled := false },
        [Effect.openWindow url])
  | Except.error m =>
      ({ st with errText := jsOrS m "Ошибка", errHidden := false, btnDisabled := false }, [])

/-- `onOpenTutorClick` (first copy, script.js lines 119-138) run to
completion against the response oracle `resp`. The `buyRequest` effect is
the `fetch` issued inside `buySpot` at the suspension point. -/
def onOpenTutorClick (initData : String) (resp : ServerResp) (st : ClientState) :
    ClientState × List Effect :=
  match tutorClickStart st with
  | Sum.inl r => r
  | Sum.inr (stMid, spotId) =>
      let r := tutorClickResume spotId resp stMid
      (r.1, Effect.buyRequest spotId initData :: r.2)

/-- First half of the second copy's `onOpenTutorClick` (script.js lines
415-425) — identical control flow to the first copy's. -/
def tutorClickStart2 (st : ClientState) : (ClientState × List Effect) ⊕ (ClientState × Int) :=
  match parseIntJS st.dataSpotId with
  | none => Sum.inl (st, [])
  | some spotId =>
    if spotId = 0 then Sum.inl (st, [])
    else if truthyS (st.boughtSpots spotId) then
      Sum.inl (st, [Effect.openWindow (st.boughtSpots spotId)])
    else
      Sum.inr ({ st with errHidden := true, btnDisabled := true }, spotId)

/-- Second half of the second copy's `onOpenTutorClick` (script.js lines
426-435); the success label is "Открыть тутор" in this copy. -/
def tutorClickResume2 (spotId : Int) (resp : ServerResp) (st : ClientState) :
    ClientState × List Effect :=
  match buySpot2 resp with
  | Except.ok url =>
      ({ st with
          boughtSpots := fun k => if k = spotId then url else st.boughtSpots k
          btnText := "Открыть тутор"
          btnDisabled := false },
        [Effect.openWindow url])
  | Except.error m =>
      ({ st with errText := jsOrS m "Ошибка", errHidden := false, btnDisabled := false }, [])

/-- The second copy's `onOpenTutorClick` (script.js lines 415-436) run to
completion. -/
def onOpenTutorClick2 (initData : String) (resp : ServerResp) (st : ClientState) :
    ClientState × List Effect :=
  match tutorClickStart2 st with
  | Sum.inl r => r
  | Sum.inr (stMid, spotId) =>
      let r := tutorClickResume2 spotId resp stMid
      (r.1, Effect.buyRequest spotId initData :: r.2)

/-- Outcome of a click on «Добавить точку»: a validation error shown in
`$addSpotError`, a toast asking to open the app from Telegram, or the
`/api/add_spot` POST with the body the handler builds. -/
inductive AddOutcome where
  | errorMsg (msg : String)
  | toastMsg (msg : String)
  | send (title : String) (lat lon : Rat) (telegraph_url : String) (init_data : String)
deriving DecidableEq

/-- URL normalization in the first copy's add-spot handler (script.js line
206): prepend "https://" when the trimmed value does not start with "http". -/
def normalizeUrl (t : String) : String :=
  if startsWithStr t "http" then t else "https://" ++ t

/-- The `$btnAddSpot` click handler of the first copy (script.js lines
190-236) up to the decision whether to POST: trims title and link, checks
title and link non-empty, normalizes the link and requires it to contain
"telegra.ph", requires a map click (`addSpotLatLng`) and a non-empty
Telegram `initData`; only then does it send `\x7b title, lat, lon,
telegraph_url, init_data \x7d`. -/
def addSpotClick (titleRaw telegraphRaw : String) (coords : Option (Rat × Rat))
    (initData : String) : AddOutcome :=
  let title := jsTrim titleRaw
  let tel0 := jsTrim telegraphRaw
  if title = "" then AddOutcome.errorMsg "Введите название точки."
  else if tel0 = "" then AddOutcome.errorMsg "Вставьте ссылку на туториал в Telegraph."
  else
    let tel := normalizeUrl tel0
    if includesStr tel "telegra.ph" = false then
      AddOutcome.errorMsg "Ссылка должна вести на telegra.ph (Telegraph)."
    else
      match coords with
      | none => AddOutcome.errorMsg "Выберите место на карте: переключитесь на «Карта», нажмите на карту, затем снова «Добавить точку»."
      | some (la, lo) =>
          if initData = "" then
            AddOutcome.toastMsg "Откройте приложение из бота в Telegram — так можно добавлять точки."
          else AddOutcome.send title la lo tel initData

/-- One `fetch("/api/spots")` attempt as `loadSpots` observes it: `none`
when the fetch rejected, `res.ok` was false, or the JSON body failed to
parse (all three land in the same `catch`); `some l` is a parsed spot
list. The oracle is indexed by attempt number. -/
def FetchOracle (α : Type) : Type := Nat → Option (List α)

/-- `loadSpots` (first copy, script.js lines 56-72) from attempt `i` with
`retriesLeft` retries remaining; also counts the attempts made. The whole
body is wrapped in `try/catch`, so the embedding is a total function: no
exception escapes. -/
def loadSpotsGo {α : Type} (fetch : FetchOracle α) : Nat → Nat → List α × Nat
  | i, 0 =>
    match fetch i with
    | some l => (l, 1)
    | none => ([], 1)
  | i, Nat.succ r =>
    match fetch i with
    | some l => (l, 1)
    | none =>
      let p := loadSpotsGo fetch (i + 1) r
      (p.1, p.2 + 1)

/-- `loadSpots(retriesLeft)`; the source's default argument is
`retriesLeft = 1`. -/
def loadSpots {α : Type} (fetch : FetchOracle α) (retriesLeft : Nat) : List α × Nat :=
  loadSpotsGo fetch 0 retriesLeft

/-- One element of the JSON array returned by `GET /api/spots`, as the
client reads it. `renderMarkers` and `selectSpot` access only `id`,
`title`, `lat` and `lon`; `extra` stands for any further fields the
server may include in the payload. -/
structure SpotJson where
  id : Int
  title : String
  lat : Rat
  lon : Rat
  extra : List (String × String)
deriving DecidableEq

/-- Projection of a spot to the fields the view actually reads. -/
def spotProj (s : SpotJson) : Int × String × Rat × Rat :=
  (s.id, s.title, s.lat, s.lon)

/-- `escapeHtml` per character: the browser serializes the text node set
by `div.textContent = s` escaping, when `div.innerHTML` is read back,
the four characters the HTML fragment-serialization algorithm escapes in
text content: `&` as `&amp;`, U+00A0 NO-BREAK SPACE as `&nbsp;`, `<` as
`&lt;` and `>` as `&gt;`. -/
def escChar (c : Char) : List Char :=
  if c = '&' then ['&', 'a', 'm', 'p', ';']
  else if c = '\u00A0' then ['&', 'n', 'b', 's', 'p', ';']
  else if c = '<' then ['&', 'l', 't', ';']
  else if c = '>' then ['&', 'g', 't', ';']
  else [c]

/-- `escapeHtml` (first copy, script.js lines 101-105): round-trip of `s`
through a detached `div`'s `textContent`/`innerHTML`, i.e. the HTML
fragment serialization of a text node holding `s`. -/
def escapeHtml (s : String) : String :=
  String.mk (s.data.foldr (fun c acc => escChar c ++ acc) [])

/-- Reference HTML escape written from the claim's words: the
HTML-significant characters of text content (`&`, `<`, `>`) replaced by
their entities, one character at a time. -/
def htmlEscapeRefList : List Char → List Char
  | [] => []
  | c :: r =>
    if c = '&' then '&' :: 'a' :: 'm' :: 'p' :: ';' :: htmlEscapeRefList r
    else if c = '<' then '&' :: 'l' :: 't' :: ';' :: htmlEscapeRefList r
    else if c = '>' then '&' :: 'g' :: 't' :: ';' :: htmlEscapeRefList r
    else c :: htmlEscapeRefList r

/-- Reference HTML escape on strings. -/
def htmlEscapeRef (s : String) : String :=
  String.mk (htmlEscapeRefList s.data)

/-- The reference escape extended with the text-serializer's
U+00A0 → `&nbsp;` rule — the full replacement set of the DOM round-trip
the source function performs. -/
def htmlEscapeNbspRefList : List Char → List Char
  | [] => []
  | c :: r =>
    if c = '&' then '&' :: 'a' :: 'm' :: 'p' :: ';' :: htmlEscapeNbspRefList r
    else if c = '\u00A0' then '&' :: 'n' :: 'b' :: 's' :: 'p' :: ';' :: htmlEscapeNbspRefList r
    else if c = '<' then '&' :: 'l' :: 't' :: ';' :: htmlEscapeNbspRefList r
    else if c = '>' then '&' :: 'g' :: 't' :: ';' :: htmlEscapeNbspRefList r
    else c :: htmlEscapeNbspRefList r

/-- The extended reference escape on strings. -/
def htmlEscapeNbspRef (s : String) : String :=
  String.mk (htmlEscapeNbspRefList s.data)

/-- What `renderMarkers` builds for one spot: the marker position, the
popup markup bound via `bindPopup`, and the arguments of the
`selectSpot` call registered on `click`. -/
structure MarkerData where
  pos : Rat × Rat
  popup : String
  clickArgs : Int × String × Rat × Rat
deriving DecidableEq

/-- Popup markup of a marker (first copy, script.js lines 91-93). -/
def popupHtml (title : String) : String :=
  "<b>" ++ escapeHtml title ++ "</b><br>Нажми на карточку внизу, чтобы открыть туториал на Telegraph."

/-- `renderMarkers` (first copy, script.js lines 86-99): one marker per
spot at `[spot.lat, spot.lon]`, popup from the escaped title, click
handler `selectSpot(spot.id, spot.title, spot.lat, spot.lon)`. -/
def renderMarkers (l : List SpotJson) : List MarkerData :=
  l.map (fun spot =>
    { pos := (spot.lat, spot.lon)
      popup := popupHtml spot.title
      clickArgs := (spot.id, spot.title, spot.lat, spot.lon) })

/-- `renderMarkers` factors through the four fields it reads. -/
def mkMarker (p : Int × String × Rat × Rat) : MarkerData :=
  { pos := (p.2.2.1, p.2.2.2)
    popup := popupHtml p.2.1
    clickArgs := p }

/-- User-interface events of the tutor card: a marker click
(`selectSpot(id, title, lat, lon)`; the coordinates only feed the elided
display text) and a click on the unlock button, carrying the Telegram
`initData` and the oracle for the server's response should a request be
issued. -/
inductive ClientEvent where
  | select (id : Int) (title : String) (lat lon : Rat)
  | clickTutor (initData : String) (resp : ServerResp)

/-- One UI event. A click on a disabled button fires no handler (the
browser swallows clicks on `disabled` buttons, and the handler disables
`$btnOpenTutor` while a purchase is in flight). -/
def stepEv (st : ClientState) : ClientEvent → ClientState × List Effect
  | ClientEvent.select id title _ _ => (selectSpot id title st, [])
  | ClientEvent.clickTutor a r =>
      if st.btnDisabled then (st, []) else onOpenTutorClick a r st

/-- Run a list of UI events, accumulating effects. -/
def runEvents (st : ClientState) : List ClientEvent → ClientState × List Effect
  | [] => (st, [])
  | e :: rest =>
      let p := stepEv st e
      let q := runEvents p.1 rest
      (q.1, p.2 ++ q.2)

/-- The event `ev`, fired in state `st`, is a successful purchase of spot
`id` that returned the unlock target `u`: it is an unlock-button click
which actually issued the `/api/buy_spot` request, whose response was ok
and carried `telegraph_url = u`. -/
def grantedAt (st : ClientState) (ev : ClientEvent) (id : Int) (u : String) : Prop :=
  ∃ a r, ev = ClientEvent.clickTutor a r ∧ r.ok = true ∧ r.telegraph_url = some u ∧
    Effect.buyRequest id a ∈ (stepEv st ev).2

/-- Some event of the trace (run from the initial client state) was a
successful purchase of spot `id` returning the unlock target `u`. -/
def granted (tr : List ClientEvent) (id : Int) (u : String) : Prop :=
  ∃ pre ev post, tr = pre ++ ev :: post ∧ grantedAt (runEvents initClient pre).1 ev id u

/-- Decidable equality of `Except` results, for evaluating concrete runs. -/
instance {ε α : Type} [DecidableEq ε] [DecidableEq α] : DecidableEq (Except ε α) := fun a b =>
  match a, b with
  | Except.ok x, Except.ok y =>
      if h : x = y then Decidable.isTrue (by rw [h]) else
        Decidable.isFalse (fun hc => h (Except.ok.inj hc))
  | Except.error x, Except.error y =>
      if h : x = y then Decidable.isTrue (by rw [h]) else
        Decidable.isFalse (fun hc => h (Except.error.inj hc))
  | Except.ok _, Except.error _ => Decidable.isFalse (fun hc => Except.noConfusion hc)
  | Except.error _, Except.ok _ => Decidable.isFalse (fun hc => Except.noConfusion hc)

/-- Errors of the access-grant service surfaced to the client
(`InsufficientFunds`/`NoFreeAttempts` collapse into `PaymentRequired`). -/
inductive GrantError where
  | SpotNotFound
  | SpotNotApproved
  | PaymentRequired
deriving DecidableEq

/-- Moderation states of a spot. -/
inductive SpotStatus where
  | Pending
  | Approved
  | Rejected
deriving DecidableEq

/-- A user's ledger row: balance in currency units and the free-attempt
counter. -/
structure UserRec where
  balance : Nat
  free_attempts : Nat
deriving DecidableEq

/-- A spot row: identity, display fields, unlock target, author, price,
moderation status and active flag. -/
structure SpotRec where
  id : Int
  title : String
  lat : Rat
  lon : Rat
  unlock_target : String
  author : Int
  price : Nat
  status : SpotStatus
  active : Bool
deriving DecidableEq

/-- Persisted server state: the user ledger, the spot table and the
recorded (user, spot) access grants. -/
structure CoreState where
  users : Int → UserRec
  spots : List SpotRec
  grants : List (Int × Int)

/-- Modelled from the spec: `grant_access(user, spot)` of the Access Grant
Service (spec §4.3); the implementation (`web/server.py`,
`database.py`) is not among the inspected sources. Steps, verbatim from
the spec: (1) resolve the spot, failing with `SpotNotFound`, or
`SpotNotApproved` when the status is not Approved (authors bypass);
(2) the author or a holder of a recorded grant gets the unlock target
with no charge; (3) otherwise consume a free attempt, falling back to a
balance debit of `price`, else fail with `PaymentRequired` and no state
change; (4) on payment, record the grant transactionally and return the
unlock target. Per §5 the whole operation runs inside a per-user
serialization boundary, so it is embedded as one atomic transition. -/
def grant_access (st : CoreState) (uid sid : Int) : CoreState × Except GrantError String :=
  match st.spots.find? (fun sp => sp.id == sid) with
  | none => (st, Except.error GrantError.SpotNotFound)
  | some sp =>
    if sp.status ≠ SpotStatus.Approved ∧ sp.author ≠ uid then
      (st, Except.error GrantError.SpotNotApproved)
    else if sp.author = uid ∨ (uid, sid) ∈ st.grants then
      (st, Except.ok sp.unlock_target)
    else
      let u := st.users uid
      if 0 < u.free_attempts then
        ({ st with
            users := fun k => if k = uid then { u with free_attempts := u.free_attempts - 1 } else st.users k
            grants := (uid, sid) :: st.grants },
          Except.ok sp.unlock_target)
      else if sp.price ≤ u.balance then
        ({ st with
            users := fun k => if k = uid then { u with balance := u.balance - sp.price } else st.users k
            grants := (uid, sid) :: st.grants },
          Except.ok sp.unlock_target)
      else (st, Except.error GrantError.PaymentRequired)

/-- `n` identical `grant_access(uid, sid)` calls executed under the
per-user serialization boundary of spec §5 (concurrent arrivals are
serialized, so they compose sequentially); collects every call's result. -/
def runGrants (st : CoreState) (uid sid : Int) : Nat → CoreState × List (Except GrantError String)
  | 0 => (st, [])
  | Nat.succ n =>
      let p := grant_access st uid sid
      let q := runGrants p.1 uid sid n
      (q.1, p.2 :: q.2)

/-- Modelled from the spec: the submission precondition of `submit_spot`
(spec §4.4 and §6), validated server-side before a spot enters Pending;
the implementation (`web/server.py`, `models.py`) is not among the
inspected sources. Title non-empty, unlock target matching the external
document host's pattern, coordinates within -90..90 / -180..180;
a failed validation surfaces an error and persists nothing, otherwise
the spot is created Pending (inactive until approved). -/
def submitSpotServer (st : CoreState) (author : Int) (title : String) (lat lon : Rat)
    (url : String) : CoreState × Except String SpotRec :=
  if title = "" then (st, Except.error "название не задано")
  else if includesStr url "telegra.ph" = false then
    (st, Except.error "ссылка должна вести на telegra.ph")
  else if lat < -90 ∨ 90 < lat ∨ lon < -180 ∨ 180 < lon then
    (st, Except.error "координаты вне допустимого диапазона")
  else
    let sp : SpotRec :=
      { id := Int.ofNat st.spots.length
        title := title
        lat := lat
        lon := lon
        unlock_target := url
        author := author
        price := 20
        status := SpotStatus.Pending
        active := false }
    ({ st with spots := sp :: st.spots }, Except.ok sp)

/-- The full add-spot submission path: the client-side handler
(`addSpotClick`, from the source) followed — only when the client
actually POSTs — by the server-side `submit_spot` validation (modelled
from the spec). A client-side validation error or toast sends nothing. -/
def addSpotSubmit (st : CoreState) (author : Int) (titleRaw telegraphRaw : String)
    (coords : Option (Rat × Rat)) (initData : String) : CoreState × Except String SpotRec :=
  match addSpotClick titleRaw telegraphRaw coords initData with
  | AddOutcome.errorMsg m => (st, Except.error m)
  | AddOutcome.toastMsg m => (st, Except.error m)
  | AddOutcome.send t la lo url _ => submitSpotServer st author t la lo url

/-- A concrete approved spot used to evaluate the model on closed inputs. -/
def demoSpot : SpotRec where
  id := 7
  title := "Крыша ТЦ"
  lat := 56
  lon := 44
  unlock_target := "https://telegra.ph/demo"
  author := 2
  price := 20
  status := SpotStatus.Approved
  active := true

/-- A concrete server state: every user has balance 0 and exactly one
free attempt; the only spot is `demoSpot`; no grants recorded. -/
def demoCore : CoreState where
  users := fun _ => { balance := 0, free_attempts := 1 }
  spots := [demoSpot]
  grants := []

/-- The displayed purchase-error text `e.message || "Ошибка"`: since
`e.message` is itself `data.detail || "Ошибка покупки"`, it is never
empty, so the outer default never fires. -/
lemma jsOrS_jsOr (o : Option String) :
    jsOrS (jsOr o "Ошибка покупки") "Ошибка" = jsOr o "Ошибка покупки" := by
  cases o with
  | none => decide
  | some s =>
      by_cases h : s = ""
      · simp [jsOr, jsOrS, h]
      · simp [jsOr, jsOrS, h]

/-- Claim C7: the two duplicated copies of the view script implement the
same purchase behaviour — `buySpot` of the first copy and of the second
copy are extensionally equal: for identical spot id and init data they
POST the same body, and for an identical server response they return the
same `telegraph_url` or throw an error with the same message. -/
theorem buySpot_copies_extensionally_equal :
    ∀ (spotId : Int) (initData : String) (resp : ServerResp),
      buySpotBody spotId initData = buySpotBody2 spotId initData ∧
      buySpot resp = buySpot2 resp := by
  intro s i r
  exact ⟨rfl, rfl⟩

/-- Claim C8: whenever the button's `data-spot-id` parses via `parseInt`
to 0 or `NaN`, `onOpenTutorClick` (in either copy) returns immediately —
state unchanged, no request, no window, no error; and since `selectSpot`
stores `String(id)`, a spot with identifier 0 always hits this guard, so
it can never be unlocked from the UI. -/
theorem tutor_click_zero_id_noop :
    ∀ (initData : String) (resp : ServerResp) (st : ClientState),
      ((parseIntJS st.dataSpotId = none ∨ parseIntJS st.dataSpotId = some 0) →
        onOpenTutorClick initData resp st = (st, []) ∧
        onOpenTutorClick2 initData resp st = (st, [])) ∧
      (∀ (title : String) (lat lon : Rat),
        ((stepEv st (ClientEvent.select 0 title lat lon)).1).dataSpotId = toString (0 : Int)) ∧
      parseIntJS (toString (0 : Int)) = some 0 := by
  intro a r st
  refine ⟨fun h => ?_, fun t la lo => ?_, by decide⟩
  · rcases h with h | h <;>
      simp [onOpenTutorClick, tutorClickStart, onOpenTutorClick2, tutorClickStart2, h]
  · simp [stepEv, selectSpot]

/-- Witness for C8 at a concrete input: in the initial state the dataset
is empty, `parseInt` gives `NaN`, and a click in either copy is a no-op. -/
theorem tutor_click_zero_id_noop_witness :
    (parseIntJS initClient.dataSpotId = none ∨ parseIntJS initClient.dataSpotId = some 0) ∧
    (onOpenTutorClick "" { ok := true, detail := none, telegraph_url := none } initClient
        = (initClient, []) ∧
      onOpenTutorClick2 "" { ok := true, detail := none, telegraph_url := none } initClient
        = (initClient, [])) :=
  ⟨Or.inl (by decide),
    (tutor_click_zero_id_noop "" { ok := true, detail := none, telegraph_url := none }
        initClient).1 (Or.inl (by decide))⟩

/-- Claim C2: when the unlock attempt fails (`buySpot` throws because the
response is not ok), all client state relevant to a retry is unchanged:
`boughtSpots` gains no entry, the only effect is the purchase request
itself (no window is opened), the response's `detail` (or the default
message) is displayed, and the button is re-enabled. -/
theorem buy_failure_leaves_state :
    ∀ (initData : String) (resp : ServerResp) (st : ClientState) (id : Int),
      parseIntJS st.dataSpotId = some id → id ≠ 0 →
      truthyS (st.boughtSpots id) = false →
      resp.ok = false →
      (onOpenTutorClick initData resp st).1.boughtSpots = st.boughtSpots ∧
      (onOpenTutorClick initData resp st).2 = [Effect.buyRequest id initData] ∧
      (onOpenTutorClick initData resp st).1.errText = jsOr resp.detail "Ошибка покупки" ∧
      (onOpenTutorClick initData resp st).1.errHidden = false ∧
      (onOpenTutorClick initData resp st).1.btnDisabled = false ∧
      (onOpenTutorClick initData resp st).1.dataSpotId = st.dataSpotId ∧
      (onOpenTutorClick initData resp st).1.btnText = st.btnText := by
  intro a r st id hp h0 hb hok
  simp [onOpenTutorClick, tutorClickStart, hp, h0, hb, tutorClickResume, buySpot, hok,
    jsOrS_jsOr]

/-- Witness for C2 at a concrete input: spot 5 selected, server replies
`403`-style with `detail = "нет средств"`. -/
theorem buy_failure_leaves_state_witness :
    parseIntJS (selectSpot 5 "Т" initClient).dataSpotId = some 5 ∧
    ((onOpenTutorClick "i" { ok := false, detail := some "нет средств", telegraph_url := none }
        (selectSpot 5 "Т" initClient)).1.boughtSpots = (selectSpot 5 "Т" initClient).boughtSpots ∧
      (onOpenTutorClick "i" { ok := false, detail := some "нет средств", telegraph_url := none }
        (selectSpot 5 "Т" initClient)).2 = [Effect.buyRequest 5 "i"] ∧
      (onOpenTutorClick "i" { ok := false, detail := some "нет средств", telegraph_url := none }
        (selectSpot 5 "Т" initClient)).1.errText
        = jsOr (some "нет средств") "Ошибка покупки" ∧
      (onOpenTutorClick "i" { ok := false, detail := some "нет средств", telegraph_url := none }
        (selectSpot 5 "Т" initClient)).1.errHidden = false ∧
      (onOpenTutorClick "i" { ok := false, detail := some "нет средств", telegraph_url := none }
        (selectSpot 5 "Т" initClient)).1.btnDisabled = false ∧
      (onOpenTutorClick "i" { ok := false, detail := some "нет средств", telegraph_url := none }
        (selectSpot 5 "Т" initClient)).1.dataSpotId = (selectSpot 5 "Т" initClient).dataSpotId ∧
      (onOpenTutorClick "i" { ok := false, detail := some "нет средств", telegraph_url := none }
        (selectSpot 5 "Т" initClient)).1.btnText = (selectSpot 5 "Т" initClient).btnText) :=
  ⟨by decide,
    buy_failure_leaves_state "i" { ok := false, detail := some "нет средств", telegraph_url := none }
      (selectSpot 5 "Т" initClient) 5 (by decide) (by decide) (by decide) (by decide)⟩

/-- Claim C1 (amended): after a first successful unlock whose response
carries a non-empty `telegraph_url`, a second click on the same spot
issues no further `buy_spot` request, leaves the client state unchanged
and opens exactly the cached URL — the same URL the first click opened.
(The amendment — requiring the returned unlock target to be non-empty —
is forced by the counterexample below.) -/
theorem unlock_idempotent_nonempty_url :
    ∀ (a a2 : String) (resp resp2 : ServerResp) (st : ClientState) (id : Int) (u : String),
      parseIntJS st.dataSpotId = some id → id ≠ 0 →
      truthyS (st.boughtSpots id) = false →
      resp.ok = true → resp.telegraph_url = some u → u ≠ "" →
      Effect.openWindow (some u) ∈ (onOpenTutorClick a resp st).2 ∧
      onOpenTutorClick a2 resp2 (onOpenTutorClick a resp st).1
        = ((onOpenTutorClick a resp st).1, [Effect.openWindow (some u)]) := by
  intro a a2 r r2 st id u hp h0 hb hok hurl hu
  have hfirst : onOpenTutorClick a r st
      = ({ st with
            boughtSpots := fun k => if k = id then some u else st.boughtSpots k
            btnText := "Открыть туториал на Telegraph"
            btnDisabled := false
            errHidden := true },
          [Effect.buyRequest id a, Effect.openWindow (some u)]) := by
    simp [onOpenTutorClick, tutorClickStart, hp, h0, hb, tutorClickResume, buySpot, hok, hurl]
  rw [hfirst]
  constructor
  · simp
  · simp [onOpenTutorClick, tutorClickStart, hp, h0, truthyS, hu]

/-- Counterexample to claim C1 as stated: a successful unlock (`res.ok`)
whose body carries an empty `telegraph_url` is cached as a falsy value,
so the very next click on the same spot issues a second `buy_spot`
request — the replay does not return the cached target free of charge. -/
theorem unlock_replay_recharges_on_blank_url :
    buySpot { ok := true, detail := none, telegraph_url := some "" } = Except.ok (some "") ∧
    Effect.buyRequest 1 "" ∈
      (onOpenTutorClick "" { ok := true, detail := none, telegraph_url := some "" }
        ((onOpenTutorClick "" { ok := true, detail := none, telegraph_url := some "" }
          (selectSpot 1 "Крыша" initClient)).1)).2 := by
  constructor
  · decide
  · decide

/-- Witness for the amended C1 at a concrete input: spot 1, unlock target
`https://telegra.ph/demo`. -/
theorem unlock_idempotent_nonempty_url_witness :
    Effect.openWindow (some "https://telegra.ph/demo") ∈
      (onOpenTutorClick "" { ok := true, detail := none, telegraph_url := some "https://telegra.ph/demo" }
        (selectSpot 1 "Крыша" initClient)).2 ∧
    onOpenTutorClick "" { ok := true, detail := none, telegraph_url := some "https://telegra.ph/demo" }
      ((onOpenTutorClick "" { ok := true, detail := none, telegraph_url := some "https://telegra.ph/demo" }
        (selectSpot 1 "Крыша" initClient)).1)
      = ((onOpenTutorClick "" { ok := true, detail := none, telegraph_url := some "https://telegra.ph/demo" }
        (selectSpot 1 "Крыша" initClient)).1,
        [Effect.openWindow (some "https://telegra.ph/demo")]) :=
  unlock_idempotent_nonempty_url "" "" _ _ (selectSpot 1 "Крыша" initClient) 1
    "https://telegra.ph/demo" (by decide) (by decide) (by decide) (by decide) (by decide)
    (by decide)

/-- Claim C5: the add-spot handler accepts an unlock-target URL only when,
after normalization (prefixing "https://" when the trimmed value does not
start with "http"), it contains "telegra.ph"; otherwise the dedicated
validation error is shown and no `/api/add_spot` request is sent — and
every URL that is sent is the normalized one and does contain
"telegra.ph". -/
theorem addspot_url_host_validated :
    ∀ (titleRaw telegraphRaw : String) (coords : Option (Rat × Rat)) (initData : String),
      (jsTrim titleRaw ≠ "" → jsTrim telegraphRaw ≠ "" →
        includesStr (normalizeUrl (jsTrim telegraphRaw)) "telegra.ph" = false →
        addSpotClick titleRaw telegraphRaw coords initData
          = AddOutcome.errorMsg "Ссылка должна вести на telegra.ph (Telegraph).") ∧
      (∀ (t : String) (la lo : Rat) (url d : String),
        addSpotClick titleRaw telegraphRaw coords initData = AddOutcome.send t la lo url d →
        includesStr url "telegra.ph" = true ∧ url = normalizeUrl (jsTrim telegraphRaw)) := by
  intro tR uR c i
  constructor
  · intro h1 h2 h3
    simp [addSpotClick, h1, h2, h3]
  · intro t la lo url d h
    unfold addSpotClick at h
    by_cases h1 : jsTrim tR = ""
    · simp [h1] at h
    by_cases h2 : jsTrim uR = ""
    · simp [h1, h2] at h
    by_cases h3 : includesStr (normalizeUrl (jsTrim uR)) "telegra.ph" = false
    · simp [h1, h2, h3] at h
    · cases c with
      | none => simp [h1, h2, h3] at h
      | some p =>
          by_cases h4 : i = ""
          · simp [h1, h2, h3, h4] at h
          · simp [h1, h2, h3, h4] at h
            refine ⟨?_, h.2.2.2.1.symm⟩
            rw [← h.2.2.2.1]
            exact Bool.not_eq_false _ |>.mp h3

/-- Witness for C5 at a concrete input: a non-Telegraph link
(`example.com/x`) is rejected with the host-validation error. -/
theorem addspot_url_host_validated_witness :
    addSpotClick "Крыша" "example.com/x" none ""
      = AddOutcome.errorMsg "Ссылка должна вести на telegra.ph (Telegraph)." :=
  (addspot_url_host_validated "Крыша" "example.com/x" none "").1 (by decide) (by decide)
    (by decide)

/-- Attempt count of `loadSpots` from any start index is at most
`retriesLeft + 1`. -/
lemma loadSpotsGo_attempts_le {α : Type} (fetch : FetchOracle α) (i r : Nat) :
    (loadSpotsGo fetch i r).2 ≤ r + 1 := by
  induction r generalizing i with
  | zero => unfold loadSpotsGo; cases fetch i <;> simp
  | succ r ih =>
      unfold loadSpotsGo
      cases fetch i with
      | none => simpa using ih (i + 1)
      | some l => simp

/-- `loadSpots` returns the first successful response, having made one
attempt per preceding failure. -/
lemma loadSpotsGo_first_success {α : Type} (fetch : FetchOracle α) (r : Nat) :
    ∀ (i k : Nat) (l : List α), (∀ j, j < k → fetch (i + j) = none) → fetch (i + k) = some l →
      k ≤ r → loadSpotsGo fetch i r = (l, k + 1) := by
  induction r with
  | zero =>
      intro i k l hnone hk hle
      interval_cases k
      · unfold loadSpotsGo; rw [show i + 0 = i from rfl] at hk; rw [hk]
  | succ r ih =>
      intro i k l hnone hk hle
      cases k with
      | zero =>
          unfold loadSpotsGo
          rw [show i + 0 = i from rfl] at hk
          rw [hk]
      | succ k =>
          have h0 : fetch i = none := by
            have := hnone 0 (Nat.succ_pos k)
            simpa using this
          unfold loadSpotsGo
          rw [h0]
          have hrec : loadSpotsGo fetch (i + 1) r = (l, k + 1) := by
            apply ih (i + 1) k l
            · intro j hj
              have := hnone (j + 1) (Nat.succ_lt_succ hj)
              simpa [Nat.add_assoc, Nat.add_comm 1 j] using this
            · have : i + 1 + k = i + (k + 1) := by omega
              rw [this]
              exact hk
            · omega
          simp [hrec]

/-- When every attempt fails, `loadSpots` exhausts all retries and
returns the empty list. -/
lemma loadSpotsGo_all_fail {α : Type} (fetch : FetchOracle α) (r : Nat) :
    ∀ (i : Nat), (∀ j, j ≤ r → fetch (i + j) = none) → loadSpotsGo fetch i r = ([], r + 1) := by
  induction r with
  | zero =>
      intro i h
      have h0 : fetch i = none := by simpa using h 0 (Nat.le_refl 0)
      unfold loadSpotsGo
      rw [h0]
  | succ r ih =>
      intro i h
      have h0 : fetch i = none := by simpa using h 0 (Nat.zero_le _)
      unfold loadSpotsGo
      rw [h0]
      have hrec : loadSpotsGo fetch (i + 1) r = ([], r + 1) := by
        apply ih
        intro j hj
        have := h (j + 1) (Nat.succ_le_succ hj)
        simpa [Nat.add_assoc, Nat.add_comm 1 j] using this
      simp [hrec]

/-- Claim C9: `loadSpots(retriesLeft)` is total (its embedding returns a
plain pair: every failure path is caught), performs at most
`retriesLeft + 1` fetch attempts (2 with the source's default argument
of 1), returns the first successful response's parsed list, and returns
the empty list when every attempt up to the budget fails. -/
theorem loadSpots_total_bounded :
    ∀ {α : Type} (fetch : FetchOracle α) (r : Nat),
      (loadSpots fetch r).2 ≤ r + 1 ∧
      (loadSpots fetch 1).2 ≤ 2 ∧
      (∀ (k : Nat) (l : List α), (∀ j, j < k → fetch j = none) → fetch k = some l → k ≤ r →
        loadSpots fetch r = (l, k + 1)) ∧
      ((∀ j, j ≤ r → fetch j = none) → loadSpots fetch r = ([], r + 1)) := by
  intro α fetch r
  refine ⟨loadSpotsGo_attempts_le fetch 0 r, loadSpotsGo_attempts_le fetch 0 1, ?_, ?_⟩
  · intro k l hnone hk hle
    apply loadSpotsGo_first_success fetch r 0 k l
    · intro j hj
      simpa using hnone j hj
    · simpa using hk
    · exact hle
  · intro h
    apply loadSpotsGo_all_fail fetch r 0
    intro j hj
    simpa using h j hj

/-- Witness for C9 at a concrete input: first attempt fails, second
succeeds with `[42]`, so two attempts are made and `[42]` returned. -/
theorem loadSpots_total_bounded_witness :
    loadSpots (fun j => if j = 1 then some [42] else none) 3 = ([42], 2) :=
  (loadSpots_total_bounded (fun j => if j = 1 then some [42] else none) 3).2.2.1 1 [42]
    (by
      intro j hj
      have : j = 0 := by omega
      simp [this])
    (by decide) (by decide)

/-- Character-by-character agreement of the DOM text-node serialization
with the extended (`&nbsp;`-aware) reference escape. -/
lemma escFoldr_eq_nbsp_ref (l : List Char) :
    l.foldr (fun c acc => escChar c ++ acc) [] = htmlEscapeNbspRefList l := by
  induction l with
  | nil => rfl
  | cons c r ih =>
      rw [List.foldr_cons, ih]
      by_cases h1 : c = '&'
      · simp [htmlEscapeNbspRefList, escChar, h1]
      · by_cases h0 : c = '\u00A0'
        · simp [htmlEscapeNbspRefList, escChar, h1, h0]
        · by_cases h2 : c = '<'
          · simp [htmlEscapeNbspRefList, escChar, h1, h0, h2]
          · by_cases h3 : c = '>'
            · simp [htmlEscapeNbspRefList, escChar, h1, h0, h2, h3]
            · simp [htmlEscapeNbspRefList, escChar, h1, h0, h2, h3]

/-- On character lists free of U+00A0, the DOM text-node serialization
agrees with the plain reference HTML escape. -/
lemma escFoldr_eq_ref_of_no_nbsp :
    ∀ l : List Char, '\u00A0' ∉ l →
      l.foldr (fun c acc => escChar c ++ acc) [] = htmlEscapeRefList l := by
  intro l
  induction l with
  | nil => intro _; rfl
  | cons c r ih =>
      intro h
      have hc : ¬c = '\u00A0' := fun hh => h (by rw [hh]; exact List.mem_cons_self _ _)
      have hr : '\u00A0' ∉ r := fun hh => h (List.mem_cons_of_mem _ hh)
      rw [List.foldr_cons, ih hr]
      by_cases h1 : c = '&'
      · simp [htmlEscapeRefList, escChar, h1]
      · by_cases h2 : c = '<'
        · simp [htmlEscapeRefList, escChar, h1, hc, h2]
        · by_cases h3 : c = '>'
          · simp [htmlEscapeRefList, escChar, h1, hc, h2, h3]
          · simp [htmlEscapeRefList, escChar, h1, hc, h2, h3]

/-- Claim C10 (amended): `escapeHtml(s)` equals the reference HTML escape
extended with the text-serializer's U+00A0 → `&nbsp;` rule; on every
string containing no U+00A0 it equals the plain reference escape of the
claim's words (`&`, `<`, `>` replaced by entities); and `renderMarkers`
embeds every spot title into the popup markup only through `escapeHtml`,
never raw. (The amendment — carving out U+00A0 — is forced by the
counterexample below.) -/
theorem escapeHtml_matches_reference_and_titles_escaped :
    (∀ s : String, escapeHtml s = htmlEscapeNbspRef s) ∧
    (∀ s : String, '\u00A0' ∉ s.data → escapeHtml s = htmlEscapeRef s) ∧
    (∀ l : List SpotJson, (renderMarkers l).map MarkerData.popup
        = l.map (fun sp =>
            "<b>" ++ escapeHtml sp.title
              ++ "</b><br>Нажми на карточку внизу, чтобы открыть туториал на Telegraph.")) := by
  refine ⟨?_, ?_, ?_⟩
  · intro s
    unfold escapeHtml htmlEscapeNbspRef
    rw [escFoldr_eq_nbsp_ref]
  · intro s hs
    unfold escapeHtml htmlEscapeRef
    rw [escFoldr_eq_ref_of_no_nbsp s.data hs]
  · intro l
    simp [renderMarkers, popupHtml]

/-- Counterexample to claim C10 as stated: the DOM round-trip the source
`escapeHtml` performs also serializes U+00A0 NO-BREAK SPACE as `&nbsp;`,
so on the one-character string U+00A0 it differs from the reference
HTML escape, which replaces only `&`, `<` and `>`. -/
theorem escapeHtml_nbsp_diverges_from_reference :
    escapeHtml "\u00A0" = "&nbsp;" ∧ htmlEscapeRef "\u00A0" = "\u00A0" ∧
    escapeHtml "\u00A0" ≠ htmlEscapeRef "\u00A0" := by
  refine ⟨by decide, by decide, by decide⟩

/-- Witness for the amended C10 at a concrete input: a string with all
three plainly HTML-significant characters and no U+00A0 escapes to the
same result under `escapeHtml` and the reference. -/
theorem escapeHtml_matches_reference_witness :
    '\u00A0' ∉ ("a<b>&c" : String).data ∧
    escapeHtml "a<b>&c" = htmlEscapeRef "a<b>&c" :=
  ⟨by decide, escapeHtml_matches_reference_and_titles_escaped.2.1 "a<b>&c" (by decide)⟩

/-- Claim C4: a submission whose coordinates are (200, 0) — outside the
valid ranges — passes the client handler (which does not range-check) but
is rejected by the server-side validation with a validation error, the
state is unchanged and no spot (in particular no Pending spot) is
created. The server side is modelled from the spec. -/
theorem out_of_range_submission_rejected :
    ∀ (st : CoreState) (author : Int) (titleRaw telegraphRaw initData : String),
      jsTrim titleRaw ≠ "" → jsTrim telegraphRaw ≠ "" →
      includesStr (normalizeUrl (jsTrim telegraphRaw)) "telegra.ph" = true →
      initData ≠ "" →
      addSpotSubmit st author titleRaw telegraphRaw (some (200, 0)) initData
        = (st, Except.error "координаты вне допустимого диапазона") := by
  intro st au tR uR i h1 h2 h3 h4
  simp +decide [addSpotSubmit, addSpotClick, submitSpotServer, h1, h2, h3, h4]

/-- Witness for C4 at a concrete input. -/
theorem out_of_range_submission_rejected_witness :
    addSpotSubmit demoCore 1 "Крыша" "telegra.ph/x" (some (200, 0)) "init"
      = (demoCore, Except.error "координаты вне допустимого диапазона") :=
  out_of_range_submission_rejected demoCore 1 "Крыша" "telegra.ph/x" "init" (by decide)
    (by decide) (by decide) (by decide)

/-- Replay of `grant_access` for a holder of a recorded grant: the unlock
target is returned with no state change and no charge. -/
lemma grant_access_replay (st : CoreState) (uid sid : Int) (sp : SpotRec)
    (hf : st.spots.find? (fun s => s.id == sid) = some sp)
    (hst : sp.status = SpotStatus.Approved ∨ sp.author = uid)
    (hg : (uid, sid) ∈ st.grants) :
    grant_access st uid sid = (st, Except.ok sp.unlock_target) := by
  unfold grant_access
  rw [hf]
  dsimp only
  have hno : ¬(sp.status ≠ SpotStatus.Approved ∧ sp.author ≠ uid) := by
    rcases hst with h | h
    · intro hc; exact hc.1 h
    · intro hc; exact hc.2 h
  rw [if_neg hno, if_pos (Or.inr hg)]

/-- First `grant_access` by a non-author with one free attempt on an
approved, ungranted spot: the attempt is consumed, the balance untouched,
the grant recorded, the target returned. -/
lemma grant_access_first_attempt (st : CoreState) (uid sid : Int) (sp : SpotRec)
    (hf : st.spots.find? (fun s => s.id == sid) = some sp)
    (hApp : sp.status = SpotStatus.Approved)
    (hAuth : sp.author ≠ uid)
    (hg : (uid, sid) ∉ st.grants)
    (hfa : (st.users uid).free_attempts = 1) :
    grant_access st uid sid =
      ({ st with
          users := fun k => if k = uid then { st.users uid with free_attempts := 0 }
            else st.users k
          grants := (uid, sid) :: st.grants },
        Except.ok sp.unlock_target) := by
  unfold grant_access
  rw [hf]
  dsimp only
  have hno : ¬(sp.status ≠ SpotStatus.Approved ∧ sp.author ≠ uid) := fun hc => hc.1 hApp
  rw [if_neg hno]
  have hno2 : ¬(sp.author = uid ∨ (uid, sid) ∈ st.grants) := by
    rintro (h | h)
    · exact hAuth h
    · exact hg h
  rw [if_neg hno2, if_pos (by rw [hfa]; exact Nat.one_pos)]
  simp [hfa]

/-- A run of replays is a fixed point: every call returns the target and
nothing changes. -/
lemma runGrants_replay (st : CoreState) (uid sid : Int) (sp : SpotRec) (n : Nat)
    (hf : st.spots.find? (fun s => s.id == sid) = some sp)
    (hst : sp.status = SpotStatus.Approved ∨ sp.author = uid)
    (hg : (uid, sid) ∈ st.grants) :
    runGrants st uid sid n = (st, List.replicate n (Except.ok sp.unlock_target)) := by
  induction n with
  | zero => rfl
  | succ n ih =>
      unfold runGrants
      rw [grant_access_replay st uid sid sp hf hst hg]
      simp [ih, List.replicate_succ]

/-- Claim C3 (amended): N serialized identical `grant_access` calls by a
user with exactly 1 free attempt and 0 balance on an unowned, unseen,
approved spot all return the unlock target; the free attempt is consumed
exactly once, the balance is never debited and the grant is recorded once
— there is never a double debit, but under the transactional per-user
serialization the spec mandates, the N−1 later calls succeed as
idempotent replays instead of failing with `PaymentRequired`. On the
client, a click while `$btnOpenTutor` is disabled fires nothing, and the
state suspended at the `await` has the button disabled, so a double-tap
cannot start a second concurrent request. -/
theorem single_free_attempt_serialized_grants :
    ∀ (st : CoreState) (uid sid : Int) (sp : SpotRec) (n : Nat),
      st.spots.find? (fun s => s.id == sid) = some sp →
      sp.status = SpotStatus.Approved →
      sp.author ≠ uid →
      (uid, sid) ∉ st.grants →
      (st.users uid).free_attempts = 1 →
      (st.users uid).balance = 0 →
      (runGrants st uid sid (n + 1)).2
          = List.replicate (n + 1) (Except.ok sp.unlock_target) ∧
      ((runGrants st uid sid (n + 1)).1.users uid).free_attempts = 0 ∧
      ((runGrants st uid sid (n + 1)).1.users uid).balance = 0 ∧
      (runGrants st uid sid (n + 1)).1.grants.count (uid, sid) = 1 ∧
      (∀ (cst : ClientState) (a : String) (r : ServerResp), cst.btnDisabled = true →
        stepEv cst (ClientEvent.clickTutor a r) = (cst, [])) ∧
      (∀ (cst stMid : ClientState) (i : Int),
        tutorClickStart cst = Sum.inr (stMid, i) → stMid.btnDisabled = true) := by
  intro st uid sid sp n hf hApp hAuth hg hfa hbal
  have hfirst := grant_access_first_attempt st uid sid sp hf hApp hAuth hg hfa
  have hreplay := runGrants_replay
    ({ st with
        users := fun k => if k = uid then { st.users uid with free_attempts := 0 }
          else st.users k
        grants := (uid, sid) :: st.grants })
    uid sid sp n hf (Or.inl hApp) (List.mem_cons_self _ _)
  have hEq : runGrants st uid sid (n + 1)
      = ({ st with
            users := fun k => if k = uid then { st.users uid with free_attempts := 0 }
              else st.users k
            grants := (uid, sid) :: st.grants },
          List.replicate (n + 1) (Except.ok sp.unlock_target)) := by
    conv_lhs => unfold runGrants
    simp only [hfirst, hreplay, List.replicate_succ]
  refine ⟨by rw [hEq], by rw [hEq]; simp, by rw [hEq]; simp [hbal], ?_, ?_, ?_⟩
  · rw [hEq]
    simp [List.count_cons_self, List.count_eq_zero.mpr hg]
  · intro cst a r h
    simp [stepEv, h]
  · intro cst stMid i h
    unfold tutorClickStart at h
    rcases hp : parseIntJS cst.dataSpotId with _ | k <;> rw [hp] at h <;> dsimp only at h
    · exact absurd h (by simp)
    · by_cases hk : k = 0
      · rw [if_pos hk] at h; exact absurd h (by simp)
      · rw [if_neg hk] at h
        by_cases hb : truthyS (cst.boughtSpots k) = true
        · rw [if_pos hb] at h; exact absurd h (by simp)
        · rw [if_neg hb] at h
          have h2 : ({ cst with errHidden := true, btnDisabled := true } : ClientState)
              = stMid := congrArg Prod.fst (Sum.inr.inj h)
          rw [← h2]

/-- Witness for the amended C3 at a concrete input: `demoCore`, user 1,
spot 7, two serialized calls. -/
theorem single_free_attempt_serialized_grants_witness :
    (runGrants demoCore 1 7 2).2 = List.replicate 2 (Except.ok demoSpot.unlock_target) ∧
    ((runGrants demoCore 1 7 2).1.users 1).free_attempts = 0 ∧
    ((runGrants demoCore 1 7 2).1.users 1).balance = 0 ∧
    (runGrants demoCore 1 7 2).1.grants.count (1, 7) = 1 :=
  have h := single_free_attempt_serialized_grants demoCore 1 7 demoSpot 1 (by decide)
    (by decide) (by decide) (by decide) (by decide) (by decide)
  ⟨h.1, h.2.1, h.2.2.1, h.2.2.2.1⟩

/-- Counterexample to claim C3 as stated: with exactly 1 free attempt and
0 balance, two serialized identical calls both succeed — the second is an
idempotent replay, not a `PaymentRequired` failure, so "the other N−1
fail with PaymentRequired" does not hold under the spec's own
transactional serialization. -/
theorem serialized_replay_not_payment_required :
    (demoCore.users 1).free_attempts = 1 ∧ (demoCore.users 1).balance = 0 ∧
    (runGrants demoCore 1 7 2).2
      = [Except.ok "https://telegra.ph/demo", Except.ok "https://telegra.ph/demo"] ∧
    (Except.ok "https://telegra.ph/demo" : Except GrantError String)
      ≠ Except.error GrantError.PaymentRequired := by
  refine ⟨by decide, by decide, by decide, by decide⟩

/-- A click on the unlock button with the button enabled runs the
handler. -/
lemma stepEv_click_enabled (a : String) (r : ServerResp) (st : ClientState)
    (hd : ¬st.btnDisabled = true) :
    stepEv st (ClientEvent.clickTutor a r) = onOpenTutorClick a r st := by
  simp [stepEv, hd]

/-- Handler branch: no parseable spot id — nothing happens. -/
lemma onOpenTutorClick_none (a : String) (r : ServerResp) (st : ClientState)
    (hp : parseIntJS st.dataSpotId = none) :
    onOpenTutorClick a r st = (st, []) := by
  simp [onOpenTutorClick, tutorClickStart, hp]

/-- Handler branch: spot id 0 — nothing happens. -/
lemma onOpenTutorClick_zero (a : String) (r : ServerResp) (st : ClientState)
    (hp : parseIntJS st.dataSpotId = some 0) :
    onOpenTutorClick a r st = (st, []) := by
  simp [onOpenTutorClick, tutorClickStart, hp]

/-- Handler branch: cached purchase — the cached URL is opened, nothing
else happens. -/
lemma onOpenTutorClick_cached (a : String) (r : ServerResp) (st : ClientState) (k : Int)
    (hp : parseIntJS st.dataSpotId = some k) (hk : k ≠ 0)
    (hb : truthyS (st.boughtSpots k) = true) :
    onOpenTutorClick a r st = (st, [Effect.openWindow (st.boughtSpots k)]) := by
  simp [onOpenTutorClick, tutorClickStart, hp, hk, hb]

/-- Handler branch: fresh purchase, ok response — the url is cached and
opened, the button relabelled and re-enabled. -/
lemma onOpenTutorClick_buy_ok (a : String) (r : ServerResp) (st : ClientState) (k : Int)
    (hp : parseIntJS st.dataSpotId = some k) (hk : k ≠ 0)
    (hb : truthyS (st.boughtSpots k) = false) (hro : r.ok = true) :
    onOpenTutorClick a r st =
      ({ st with
          boughtSpots := fun j => if j = k then r.telegraph_url else st.boughtSpots j
          btnText := "Открыть туториал на Telegraph"
          btnDisabled := false
          errHidden := true },
        [Effect.buyRequest k a, Effect.openWindow r.telegraph_url]) := by
  simp [onOpenTutorClick, tutorClickStart, hp, hk, hb, tutorClickResume, buySpot, hro]

/-- Handler branch: fresh purchase, error response — only the error
display changes. -/
lemma onOpenTutorClick_buy_err (a : String) (r : ServerResp) (st : ClientState) (k : Int)
    (hp : parseIntJS st.dataSpotId = some k) (hk : k ≠ 0)
    (hb : truthyS (st.boughtSpots k) = false) (hro : r.ok = false) :
    onOpenTutorClick a r st =
      ({ st with
          errText := jsOrS (jsOr r.detail "Ошибка покупки") "Ошибка"
          errHidden := false
          btnDisabled := false },
        [Effect.buyRequest k a]) := by
  simp [onOpenTutorClick, tutorClickStart, hp, hk, hb, tutorClickResume, buySpot, hro]

/-- Any cache entry visible after one step was either already present or
was written by this step after an ok response carrying that url. -/
lemma step_click_bought (a : String) (r : ServerResp) (st : ClientState) (id : Int) (u : String)
    (h : (stepEv st (ClientEvent.clickTutor a r)).1.boughtSpots id = some u) :
    st.boughtSpots id = some u ∨
      (r.ok = true ∧ r.telegraph_url = some u ∧
        Effect.buyRequest id a ∈ (stepEv st (ClientEvent.clickTutor a r)).2) := by
  by_cases hd : st.btnDisabled
  · simp only [stepEv, hd, if_true] at h
    exact Or.inl h
  · rw [stepEv_click_enabled a r st hd] at h ⊢
    rcases hp : parseIntJS st.dataSpotId with _ | k
    · rw [onOpenTutorClick_none a r st hp] at h
      exact Or.inl h
    · by_cases hk : k = 0
      · subst hk
        rw [onOpenTutorClick_zero a r st hp] at h
        exact Or.inl h
      · by_cases hb : truthyS (st.boughtSpots k) = true
        · rw [onOpenTutorClick_cached a r st k hp hk hb] at h
          exact Or.inl h
        · rcases hro : r.ok with _ | _
          · rw [onOpenTutorClick_buy_err a r st k hp hk (by simpa using hb) hro] at h
            exact Or.inl h
          · rw [onOpenTutorClick_buy_ok a r st k hp hk (by simpa using hb) hro] at h ⊢
            dsimp only at h
            by_cases hik : id = k
            · subst hik
              simp only [if_pos rfl] at h
              exact Or.inr ⟨rfl, h, by simp⟩
            · simp only [if_neg hik] at h
              exact Or.inl h

/-- Any url opened by one step was either already cached or was returned
by this step's own successful purchase. -/
lemma step_click_open (a : String) (r : ServerResp) (st : ClientState) (u : String)
    (h : Effect.openWindow (some u) ∈ (stepEv st (ClientEvent.clickTutor a r)).2) :
    ∃ id, st.boughtSpots id = some u ∨
      (r.ok = true ∧ r.telegraph_url = some u ∧
        Effect.buyRequest id a ∈ (stepEv st (ClientEvent.clickTutor a r)).2) := by
  by_cases hd : st.btnDisabled
  · simp only [stepEv, hd, if_true] at h
    simp at h
  · rw [stepEv_click_enabled a r st hd] at h ⊢
    rcases hp : parseIntJS st.dataSpotId with _ | k
    · rw [onOpenTutorClick_none a r st hp] at h
      simp at h
    · by_cases hk : k = 0
      · subst hk
        rw [onOpenTutorClick_zero a r st hp] at h
        simp at h
      · by_cases hb : truthyS (st.boughtSpots k) = true
        · rw [onOpenTutorClick_cached a r st k hp hk hb] at h
          simp only [List.mem_singleton, Effect.openWindow.injEq] at h
          exact ⟨k, Or.inl h.symm⟩
        · rcases hro : r.ok with _ | _
          · rw [onOpenTutorClick_buy_err a r st k hp hk (by simpa using hb) hro] at h
            simp at h
          · rw [onOpenTutorClick_buy_ok a r st k hp hk (by simpa using hb) hro] at h ⊢
            refine ⟨k, Or.inr ⟨rfl, ?_, by simp⟩⟩
            simp only [List.mem_cons, List.mem_singleton] at h
            rcases h with h | h
            · exact absurd h (by simp)
            · rcases h with h | h
              · exact (Effect.openWindow.inj h).symm
              · simp at h

/-- Unfolding a run of events at its last event. -/
lemma runEvents_snoc (st : ClientState) (tr : List ClientEvent) (e : ClientEvent) :
    runEvents st (tr ++ [e]) =
      ((stepEv (runEvents st tr).1 e).1,
        (runEvents st tr).2 ++ (stepEv (runEvents st tr).1 e).2) := by
  induction tr generalizing st with
  | nil => simp [runEvents]
  | cons x xs ih =>
      simp only [List.cons_append, runEvents]
      rw [show (xs.append [e]) = xs ++ [e] from rfl, ih ((stepEv st x).1)]
      simp [List.append_assoc]

/-- A purchase recorded in a trace stays recorded when the trace grows. -/
lemma granted_snoc (tr : List ClientEvent) (e : ClientEvent) (id : Int) (u : String)
    (h : granted tr id u) : granted (tr ++ [e]) id u := by
  rcases h with ⟨pre, ev, post, rfl, hAt⟩
  exact ⟨pre, ev, post ++ [e], by simp, hAt⟩

/-- Trace invariant: a cache entry `boughtSpots[id] = u` exists only if
some event of the trace was a successful `buy_spot` purchase of `id`
returning `u`. -/
lemma cached_implies_granted :
    ∀ (tr : List ClientEvent) (id : Int) (u : String),
      (runEvents initClient tr).1.boughtSpots id = some u → granted tr id u := by
  intro tr
  induction tr using List.reverseRecOn with
  | nil =>
      intro id u h
      exact absurd h (by simp [runEvents, initClient])
  | append_singleton t e ih =>
      intro id u h
      rw [runEvents_snoc] at h
      cases e with
      | select i ti la lo =>
          have hsame : (stepEv (runEvents initClient t).1
              (ClientEvent.select i ti la lo)).1.boughtSpots id
              = (runEvents initClient t).1.boughtSpots id := by
            simp [stepEv, selectSpot]
          rw [hsame] at h
          exact granted_snoc t _ id u (ih id u h)
      | clickTutor a r =>
          rcases step_click_bought a r _ id u h with hold | ⟨hok, hurl, hmem⟩
          · exact granted_snoc t _ id u (ih id u hold)
          · exact ⟨t, ClientEvent.clickTutor a r, [], by simp,
              a, r, rfl, hok, hurl, hmem⟩

/-- Trace invariant: a window is opened on an unlock target only when
some event up to that point successfully purchased it. -/
lemma opened_implies_granted :
    ∀ (tr : List ClientEvent) (e : ClientEvent) (u : String),
      Effect.openWindow (some u) ∈ (stepEv (runEvents initClient tr).1 e).2 →
      ∃ id, granted (tr ++ [e]) id u := by
  intro tr e u h
  cases e with
  | select i ti la lo => simp [stepEv] at h
  | clickTutor a r =>
      rcases step_click_open a r _ u h with ⟨id, hcase⟩
      rcases hcase with hc | ⟨hok, hurl, hmem⟩
      · exact ⟨id, granted_snoc tr _ id u (cached_implies_granted tr id u hc)⟩
      · exact ⟨id, tr, ClientEvent.clickTutor a r, [], by simp,
          a, r, rfl, hok, hurl, hmem⟩

/-- `renderMarkers` factors through the projection to the four fields it
reads. -/
lemma renderMarkers_factor (l : List SpotJson) :
    renderMarkers l = (l.map spotProj).map mkMarker := by
  rw [List.map_map]
  rfl

/-- Claim C6: spot listings are rendered from `id`, `title`, `lat`, `lon`
only (two payloads agreeing on those fields render identically, whatever
else they carry); `boughtSpots[id]` holds an unlock target only if a
`buy_spot` call for that spot previously succeeded with it; and a window
is only ever opened on an unlock target already granted by such a
successful call — never before. -/
theorem listings_and_unlock_invariant :
    (∀ (l1 l2 : List SpotJson), l1.map spotProj = l2.map spotProj →
      renderMarkers l1 = renderMarkers l2) ∧
    (∀ (tr : List ClientEvent) (id : Int) (u : String),
      (runEvents initClient tr).1.boughtSpots id = some u → granted tr id u) ∧
    (∀ (tr : List ClientEvent) (e : ClientEvent) (u : String),
      Effect.openWindow (some u) ∈ (stepEv (runEvents initClient tr).1 e).2 →
      ∃ id, granted (tr ++ [e]) id u) := by
  refine ⟨?_, cached_implies_granted, opened_implies_granted⟩
  intro l1 l2 h
  rw [renderMarkers_factor, renderMarkers_factor, h]

/-- Witness for C6 at a concrete trace: select spot 3, buy it
successfully; the cache entry exists and the purchase is recorded in the
trace. -/
theorem listings_and_unlock_invariant_witness :
    (runEvents initClient
        [ClientEvent.select 3 "Крыша" 56 44,
          ClientEvent.clickTutor "i" ⟨true, none, some "https://telegra.ph/demo"⟩]).1.boughtSpots 3
      = some "https://telegra.ph/demo" ∧
    granted
      [ClientEvent.select 3 "Крыша" 56 44,
        ClientEvent.clickTutor "i" ⟨true, none, some "https://telegra.ph/demo"⟩]
      3 "https://telegra.ph/demo" :=
  ⟨by decide,
    listings_and_unlock_invariant.2.1
      [ClientEvent.select 3 "Крыша" 56 44,
        ClientEvent.clickTutor "i" ⟨true, none, some "https://telegra.ph/demo"⟩]
      3 "https://telegra.ph/demo" (by decide)⟩
